import Mathlib

/-!
Verification development for an LLM-driven text-adventure engine
(`app/character/base.py`, `app/character/npc.py`, `app/world/scene.py`,
`app/game_engine/state.py`, `app/ai/dungeon_master.py`).

The Python code is shallowly embedded:

* Python dicts with string keys become insertion-ordered association lists
  (`lookupKey`, `setKey`, `delKey` mirror `d[k]`, `d[k] = v`, `del d[k]`).
* Connection dictionaries are heap objects shared by reference in Python
  (a `Scene` built by `_create_scene_from_data` holds the *same* dict object
  that sits in `scene_memory`).  To keep this observable, connection dicts
  live in an explicit `Store`, and a `Scene` holds a reference (index) into
  it; every operation that can touch a connection dict threads the store.
* The LLM transport (`call_llm_with_json_response`) is an oracle argument:
  a call is modelled by an `Except String RawSceneData` / `Except String
  ActionResult` value holding either the parsed response or the message of
  the raised `LLMResponseError`.  The validators from `dungeon_master.py`
  run inside the call wrapper exactly as in the source.
* Raw generated data (dicts fresh from JSON) is modelled with `Option`
  fields; a missing field is `none` and indexing a missing field raises
  `PyErr.keyError`, mirroring Python `KeyError`.
-/

set_option autoImplicit false

/-! ## Python dict semantics over association lists -/

/-- Python `d[k]` as an option: first binding with the given key. -/
def lookupKey {α : Type} (l : List (String × α)) (k : String) : Option α :=
  (l.find? (fun p => p.1 == k)).map (fun p => p.2)

/-- Python `k in d`. -/
def keyIn {α : Type} (l : List (String × α)) (k : String) : Bool :=
  (lookupKey l k).isSome

/-- Python `d[k] = v`: update in place when the key exists, else append
(insertion order preserved, as for Python dicts). -/
def setKey {α : Type} (l : List (String × α)) (k : String) (v : α) :
    List (String × α) :=
  if keyIn l k then l.map (fun p => if p.1 == k then (k, v) else p)
  else l ++ [(k, v)]

/-- Python `del d[k]`. -/
def delKey {α : Type} (l : List (String × α)) (k : String) : List (String × α) :=
  l.filter (fun p => p.1 != k)

/-! ## Heap of connection dictionaries

Python dicts are mutable heap objects; `Scene.connections` and the raw scene
definitions in `scene_memory` can be the *same* object.  The store makes the
sharing explicit: a reference is an index, allocation appends. -/

/-- A connection dictionary: location name -> scene id. -/
abbrev ConnDict := List (String × String)

/-- Heap of connection dictionaries. -/
structure Store where
  dicts : List ConnDict := []
deriving DecidableEq

/-- Dereference (out-of-range never happens for references we create). -/
def Store.get (st : Store) (r : Nat) : ConnDict :=
  st.dicts.getD r []

/-- Allocate a fresh dict, returning its reference. -/
def Store.alloc (st : Store) (d : ConnDict) : Store × Nat :=
  (⟨st.dicts ++ [d]⟩, st.dicts.length)

/-- Overwrite the dict behind a reference (in-place mutation). -/
def Store.write (st : Store) (r : Nat) (d : ConnDict) : Store :=
  ⟨st.dicts.set r d⟩

/-! ## Entity model (`app/character/base.py`, `npc.py`, `player.py`) -/

/-- The `Item` dataclass. -/
structure Item where
  name : String
  description : String
  properties : List (String × String) := []
deriving DecidableEq

/-- The `Skill` dataclass. -/
structure Skill where
  name : String
  description : String
  cost : String
  properties : List (String × String) := []
deriving DecidableEq

/-- The `Character` dataclass.  `status` values of `none` model Python `None`
(the deletion sentinel can itself be stored, see `Character.update`). -/
structure Character where
  name : String
  description : String
  health : String := "healthy"
  energy : String := "energized"
  status : List (String × Option String) := []
  inventory : List Item := []
  skills : List Skill := []
deriving DecidableEq

/-- An entry of an `add_items` list in an update dict: `name` and
`description` are required by the code (`item_data['name']`), `properties`
is read with `.get('properties', {})`. -/
structure ItemData where
  name : String
  description : String
  properties : Option (List (String × String)) := none
deriving DecidableEq

def ItemData.toItem (d : ItemData) : Item :=
  ⟨d.name, d.description, d.properties.getD []⟩

/-- A delta record as consumed by `Character.update` /
`NPC.update`: field `none` models the key being absent from the dict. -/
structure CharUpdates where
  health : Option String := none
  energy : Option String := none
  status : Option (List (String × Option String)) := none
  add_items : Option (List ItemData) := none
  remove_items : Option (List String) := none
  attitude : Option String := none
  properties : Option (List (String × Option String)) := none
deriving DecidableEq

/-- One iteration of the status-merge loop in `Character.update`:
`if value is None and key in self.status: del self.status[key]
 else: self.status[key] = value`. -/
def statusStep (st : List (String × Option String)) (kv : String × Option String) :
    List (String × Option String) :=
  if kv.2.isNone && keyIn st kv.1 then delKey st kv.1 else setKey st kv.1 kv.2

/-- Method `Character.update` (base class).  Applies, in source order: health,
energy, status merge, `add_items` append, `remove_items` filter. -/
def Character.update (c : Character) (u : CharUpdates) : Character :=
  let c := match u.health with
    | some h => { c with health := h }
    | none => c
  let c := match u.energy with
    | some e => { c with energy := e }
    | none => c
  let c := match u.status with
    | some entries => { c with status := entries.foldl statusStep c.status }
    | none => c
  let c := match u.add_items with
    | some items => { c with inventory := c.inventory ++ items.map ItemData.toItem }
    | none => c
  match u.remove_items with
  | some names =>
      { c with inventory :=
          names.foldl (fun inv n => inv.filter (fun it => it.name != n)) c.inventory }
  | none => c

/-- The `is_alive` property. -/
def Character.is_alive (c : Character) : Bool :=
  !(["dead", "deceased", "unconscious"].contains c.health)

/-- Class `NPC(Character)` with `attitude` and an NPC-only property map. -/
structure NPC extends Character where
  attitude : String := "neutral"
  properties : List (String × Option String) := []
deriving DecidableEq

/-- Method `NPC.update`: base update, then attitude replacement, then the
properties merge (same null-deletes-key loop as status). -/
def NPC.update (c : NPC) (u : CharUpdates) : NPC :=
  let c := { c with toCharacter := c.toCharacter.update u }
  let c := match u.attitude with
    | some a => { c with attitude := a }
    | none => c
  match u.properties with
  | some entries => { c with properties := entries.foldl statusStep c.properties }
  | none => c

/-- Class `Player(Character)` adds no fields and no behaviour. -/
abbrev Player := Character

/-! ## World graph (`app/world/scene.py`) -/

/-- The `Scene` dataclass.  `connections` is a reference into the `Store`:
in Python it holds a mutable dict that other owners may share. -/
structure Scene where
  id : String
  title : String
  description : String
  characters : List NPC := []
  connections : Nat
  properties : List (String × String) := []
deriving DecidableEq

/-- The contents of the scene's connection dict in a given heap. -/
def Scene.connectionsIn (s : Scene) (st : Store) : ConnDict :=
  st.get s.connections

/-- Method `Scene.add_character`: unconditional append. -/
def Scene.add_character (s : Scene) (c : NPC) : Scene :=
  { s with characters := s.characters ++ [c] }

/-- Method `Scene.remove_character`: drops every character with the name. -/
def Scene.remove_character (s : Scene) (n : String) : Scene :=
  { s with characters := s.characters.filter (fun c => c.name != n) }

/-- Method `Scene.get_character`: first character with the name. -/
def Scene.get_character (s : Scene) (n : String) : Option NPC :=
  s.characters.find? (fun c => c.name == n)

/-- Method `Scene.add_connection`: mutates the shared connection dict. -/
def Scene.add_connection (s : Scene) (st : Store) (loc sid : String) : Store :=
  st.write s.connections (setKey (st.get s.connections) loc sid)

/-- Method `Scene.remove_connection`. -/
def Scene.remove_connection (s : Scene) (st : Store) (loc : String) : Store :=
  if keyIn (st.get s.connections) loc then
    st.write s.connections (delKey (st.get s.connections) loc)
  else st

/-! ## Game state (`app/game_engine/state.py`) -/

/-- An `add_characters` entry of a `scene_updates` dict: `name` and
`description` are indexed (required), `attitude` read with a default. -/
structure AddCharData where
  name : String
  description : String
  attitude : Option String := none
deriving DecidableEq

/-- Call `NPC(name=..., description=..., attitude=char_data.get('attitude', 'neutral'))`. -/
def AddCharData.toNPC (d : AddCharData) : NPC :=
  { name := d.name, description := d.description, attitude := d.attitude.getD "neutral" }

/-- The `scene_updates` sub-dict of an action result. -/
structure SceneUpdates where
  add_characters : Option (List AddCharData) := none
  remove_characters : Option (List String) := none
  new_connections : Option (List (String × String)) := none
deriving DecidableEq

/-- An action-result dict, as returned by `resolve_action` and consumed by
`GameState.update`.  All keys are optional in the raw JSON. -/
structure ActionResult where
  success : Option Bool := none
  description : Option String := none
  player_updates : Option CharUpdates := none
  character_updates : Option (List (String × CharUpdates)) := none
  scene_updates : Option SceneUpdates := none
  move_to_scene : Option String := none
  game_over : Option Bool := none
  ending_message : Option String := none
  error : Option String := none
deriving DecidableEq

/-- Python truthiness of an optional string (`None` and `""` are falsy). -/
def truthy : Option String → Bool
  | none => false
  | some s => s != ""

/-- Raw item dict inside generated scene data; every field optional
(indexing a missing one raises `KeyError` during construction). -/
structure RawItemData where
  name : Option String := none
  description : Option String := none
  properties : Option (List (String × String)) := none
deriving DecidableEq

/-- Raw skill dict inside generated scene data; every field optional. -/
structure SkillData where
  name : Option String := none
  description : Option String := none
  cost : Option String := none
  properties : Option (List (String × String)) := none
deriving DecidableEq

/-- Raw character dict inside generated scene data; every field optional. -/
structure CharData where
  name : Option String := none
  description : Option String := none
  attitude : Option String := none
  inventory : Option (List RawItemData) := none
  skills : Option (List SkillData) := none
deriving DecidableEq

/-- The `GameState` dataclass. -/
structure GameState where
  player : Option Player := none
  current_scene : Option Scene := none
  scene_history : List Scene := []
  is_game_over : Bool := false
  ending_message : String := ""
deriving DecidableEq

/-- Method `GameState.update`, first block: `if self.player and 'player_updates'
in result: self.player.update(...)`. -/
def applyPlayerUpdates (gs : GameState) (r : ActionResult) : GameState :=
  match gs.player, r.player_updates with
  | some p, some u => { gs with player := some (Character.update p u) }
  | _, _ => gs

/-- Helper for `get_character` + in-place `character.update`: update the first
character carrying the name, leave the list unchanged when absent. -/
def updateNamedCharacter : List NPC → String → CharUpdates → List NPC
  | [], _, _ => []
  | c :: cs, n, u =>
      if c.name == n then NPC.update c u :: cs
      else c :: updateNamedCharacter cs n u

/-- Method `GameState.update`, second block: per-named-NPC deltas. -/
def applyCharacterUpdates (gs : GameState) (r : ActionResult) : GameState :=
  match gs.current_scene, r.character_updates with
  | some s, some cus =>
      { gs with current_scene := some (cus.foldl
          (fun sc p => { sc with characters := updateNamedCharacter sc.characters p.1 p.2 }) s) }
  | _, _ => gs

/-- Method `GameState.update`, third block: scene deltas (adds, removes, new
connections — the last mutates the shared connection dict in the store). -/
def applySceneUpdates (st : Store) (gs : GameState) (r : ActionResult) :
    Store × GameState :=
  match gs.current_scene, r.scene_updates with
  | some s, some su =>
      let s := match su.add_characters with
        | some ds => ds.foldl (fun sc d => sc.add_character d.toNPC) s
        | none => s
      let s := match su.remove_characters with
        | some ns => ns.foldl (fun sc n => sc.remove_character n) s
        | none => s
      let st := match su.new_connections with
        | some conns => conns.foldl (fun h p => s.add_connection h p.1 p.2) st
        | none => st
      (st, { gs with current_scene := some s })
  | _, _ => (st, gs)

/-- Method `GameState.update`, fourth block: a truthy `move_to_scene` pushes the
current scene onto the history (the transition itself happens in the
DungeonMaster). -/
def applyMove (gs : GameState) (r : ActionResult) : GameState :=
  if truthy r.move_to_scene then
    match gs.current_scene with
    | some s => { gs with scene_history := gs.scene_history ++ [s] }
    | none => gs
  else gs

/-- Method `GameState.update`, final block: `game_over` / `ending_message`. -/
def applyGameOver (gs : GameState) (r : ActionResult) : GameState :=
  if r.game_over = some true then
    { gs with is_game_over := true,
              ending_message := r.ending_message.getD "Game Over" }
  else gs

/-- Method `GameState.update(result)`: the five blocks in source order. -/
def GameState.update (gs : GameState) (st : Store) (r : ActionResult) :
    Store × GameState :=
  let gs1 := applyPlayerUpdates gs r
  let gs2 := applyCharacterUpdates gs1 r
  let p := applySceneUpdates st gs2 r
  let gs4 := applyMove p.2 r
  (p.1, applyGameOver gs4 r)

/-! ## Dungeon master (`app/ai/dungeon_master.py`) -/

/-- Python exception classes that `dungeon_master.py` distinguishes. -/
inductive PyErr where
  | keyError : String → PyErr
  | valueError : String → PyErr
  | llmError : String → PyErr
deriving DecidableEq

def isErr {ε α : Type} : Except ε α → Bool
  | .error _ => true
  | .ok _ => false

/-- Raw scene dict as parsed from a generation response (connection dict
still by value: the parser has just allocated a fresh object). -/
structure RawSceneData where
  id : Option String := none
  title : Option String := none
  description : Option String := none
  connections : Option ConnDict := none
  characters : Option (List CharData) := none
deriving DecidableEq

/-- Scene dict held in `self.scenario` or `self.scene_memory`: its
connection dict lives in the store and can be shared with live `Scene`
objects. -/
structure SceneData where
  id : Option String := none
  title : Option String := none
  description : Option String := none
  connections : Option Nat := none
  characters : Option (List CharData) := none
deriving DecidableEq

/-- Putting a freshly parsed scene dict on the heap: its connection dict
(if the key is present) is allocated as a new object. -/
def RawSceneData.store (r : RawSceneData) (st : Store) : Store × SceneData :=
  match r.connections with
  | some d =>
      let p := st.alloc d
      (p.1, ⟨r.id, r.title, r.description, some p.2, r.characters⟩)
  | none => (st, ⟨r.id, r.title, r.description, none, r.characters⟩)

/-- Field `self.scenario`: raw scenario dict, every field optional. -/
structure ScenarioDict where
  title : Option String := none
  setting : Option String := none
  objective : Option String := none
  environment : Option String := none
  starting_scene_id : Option String := none
  scenes : Option (List (String × SceneData)) := none
deriving DecidableEq

/-- The `DungeonMaster` state: the stored scenario and the scene memory. -/
structure DungeonMaster where
  scenario : ScenarioDict := {}
  scene_memory : List (String × SceneData) := []
deriving DecidableEq

/-- Build an `Item` from a raw item dict (`item_data["name"]`,
`item_data["description"]`, `.get("properties", {})`). -/
def buildItem (d : RawItemData) : Except PyErr Item :=
  match d.name, d.description with
  | some n, some ds => .ok ⟨n, ds, d.properties.getD []⟩
  | none, _ => .error (.keyError "name")
  | _, none => .error (.keyError "description")

/-- The inventory loop of `_create_scene_from_data`. -/
def buildItems : List RawItemData → Except PyErr (List Item)
  | [] => .ok []
  | d :: ds =>
      match buildItem d with
      | .error e => .error e
      | .ok it =>
          match buildItems ds with
          | .error e => .error e
          | .ok its => .ok (it :: its)

/-- Build a `Skill` from a raw skill dict. -/
def buildSkill (d : SkillData) : Except PyErr Skill :=
  match d.name, d.description, d.cost with
  | some n, some ds, some c => .ok ⟨n, ds, c, d.properties.getD []⟩
  | none, _, _ => .error (.keyError "name")
  | _, none, _ => .error (.keyError "description")
  | _, _, none => .error (.keyError "cost")

/-- The skills loop of `_create_scene_from_data`. -/
def buildSkills : List SkillData → Except PyErr (List Skill)
  | [] => .ok []
  | d :: ds =>
      match buildSkill d with
      | .error e => .error e
      | .ok sk =>
          match buildSkills ds with
          | .error e => .error e
          | .ok sks => .ok (sk :: sks)

/-- Build one NPC from a raw character dict: inventory loop, skills loop,
then the `NPC(...)` constructor call (name and description indexed,
attitude read with default `"neutral"`). -/
def buildNPC (d : CharData) : Except PyErr NPC :=
  match buildItems (d.inventory.getD []) with
  | .error e => .error e
  | .ok inv =>
      match buildSkills (d.skills.getD []) with
      | .error e => .error e
      | .ok sks =>
          match d.name, d.description with
          | some n, some ds =>
              .ok { name := n, description := ds, inventory := inv, skills := sks,
                    attitude := d.attitude.getD "neutral" }
          | none, _ => .error (.keyError "name")
          | _, none => .error (.keyError "description")

/-- The character loop of `_create_scene_from_data`. -/
def buildNPCs : List CharData → Except PyErr (List NPC)
  | [] => .ok []
  | d :: ds =>
      match buildNPC d with
      | .error e => .error e
      | .ok n =>
          match buildNPCs ds with
          | .error e => .error e
          | .ok ns => .ok (n :: ns)

/-- Method `_create_scene_from_data(scene_data, scene_id)`: resolve the id (a
falsy parameter falls back to `scene_data.get("id")`), build the NPCs,
raise `ValueError` on a falsy id, then assemble the `Scene`.  The scene's
connection dict is `scene_data.get("connections", {})`: the *same* heap
object when the key is present, a fresh empty dict otherwise. -/
def create_scene_from_data (st : Store) (d : SceneData) (scene_id : Option String) :
    Store × Except PyErr Scene :=
  let sid := if truthy scene_id then scene_id else d.id
  match buildNPCs (d.characters.getD []) with
  | .error e => (st, .error e)
  | .ok npcs =>
      if truthy sid then
        match sid, d.title, d.description with
        | some s, some t, some ds =>
            (match d.connections with
             | some r => (st, .ok ⟨s, t, ds, npcs, r, []⟩)
             | none =>
                 let p := st.alloc []
                 (p.1, .ok ⟨s, t, ds, npcs, p.2, []⟩))
        | _, none, _ => (st, .error (.keyError "title"))
        | _, _, none => (st, .error (.keyError "description"))
        | none, _, _ => (st, .error (.valueError "Scene ID is required"))
      else (st, .error (.valueError "Scene ID is required"))

/-- Method `_create_scene_from_scenario(scene_id)`:
`self.scenario["scenes"][scene_id]` then construction. -/
def DungeonMaster.create_scene_from_scenario (dm : DungeonMaster) (st : Store)
    (scene_id : String) : Store × Except PyErr Scene :=
  match dm.scenario.scenes with
  | none => (st, .error (.keyError "scenes"))
  | some scenes =>
      match lookupKey scenes scene_id with
      | none => (st, .error (.keyError scene_id))
      | some d => create_scene_from_data st d (some scene_id)

/-- Method `_validate_scene_data`: title and description must be present. -/
def validate_scene_data (d : RawSceneData) : Bool :=
  d.title.isSome && d.description.isSome

/-- Function `call_llm_with_json_response` for the scene-creation request: the
oracle gives the parsed response or the transport/parse error message;
a validation failure is wrapped into `LLMResponseError` inside the call,
as in `llm_utils.py`. -/
def callLLMScene (gen : Except String RawSceneData) : Except PyErr RawSceneData :=
  match gen with
  | .error e => .error (.llmError e)
  | .ok raw =>
      if validate_scene_data raw then .ok raw
      else .error (.llmError "Missing field in scene data")

def mysteriousAreaDescription : String :=
  "You\x27ve arrived at a mysterious area that seems to shift and change before your eyes. The path behind you is clear, but the rest is shrouded in mist."

def unexpectedAreaDescription : String :=
  "You\x27ve arrived at an unexpected area. There seems to be some strange energy interfering with your senses. The path back is clear, but moving forward might be risky."

/-- The connection entries a fallback scene dict ends up with: the single
`"Path Back"` edge to the current scene when there is one, else none. -/
def backConnections (gs : GameState) : ConnDict :=
  match gs.current_scene with
  | some cur => [("Path Back", cur.id)]
  | none => []

/-- The fallback blocks of `_generate_new_scene`: a fresh scene dict with
an empty connection dict, plus a `"Path Back"` edge to the current scene
when there is one, fed through `_create_scene_from_data`. -/
def fallback_scene (st : Store) (gs : GameState) (scene_id title desc : String) :
    Store × Except PyErr Scene :=
  let p := st.alloc (backConnections gs)
  create_scene_from_data p.1
    { id := some scene_id, title := some title, description := some desc,
      connections := some p.2, characters := some [] } (some scene_id)

/-- Method `_generate_new_scene(game_state, scene_id)`: one generation call; on
success the raw dict is stored in `scene_memory` *before* entity
construction; on `LLMResponseError`/`ValueError` the "Mysterious Area"
fallback is built, on any other exception (e.g. `KeyError` from a
malformed character entry) the "Unexpected Area" fallback. -/
def DungeonMaster.generate_new_scene (dm : DungeonMaster) (st : Store)
    (gs : GameState) (scene_id : String) (gen : Except String RawSceneData) :
    Store × DungeonMaster × Except PyErr Scene :=
  match callLLMScene gen with
  | .error _ =>
      let p := fallback_scene st gs scene_id "Mysterious Area" mysteriousAreaDescription
      (p.1, dm, p.2)
  | .ok raw =>
      let q := raw.store st
      let dm1 := { dm with scene_memory := setKey dm.scene_memory scene_id q.2 }
      match create_scene_from_data q.1 q.2 (some scene_id) with
      | (st2, .ok scene) => (st2, dm1, .ok scene)
      | (st2, .error (.valueError _)) =>
          let p := fallback_scene st2 gs scene_id "Mysterious Area" mysteriousAreaDescription
          (p.1, dm1, p.2)
      | (st2, .error (.llmError _)) =>
          let p := fallback_scene st2 gs scene_id "Mysterious Area" mysteriousAreaDescription
          (p.1, dm1, p.2)
      | (st2, .error (.keyError _)) =>
          let p := fallback_scene st2 gs scene_id "Unexpected Area" unexpectedAreaDescription
          (p.1, dm1, p.2)

/-- Truthiness-normalised target id (`if target_scene_id:`). -/
def truthyOpt (o : Option String) : Option String :=
  match o with
  | some s => if s == "" then none else some s
  | none => none

/-- Method `create_scene(game_state, target_scene_id)`: starting scene when there
is neither a current scene nor a truthy target; otherwise predefined /
remembered / generated resolution for a truthy target; otherwise the
current scene unchanged.  (`raise ValueError("No current scene found")`
is unreachable: it would need a falsy target and no current scene, which
the first branch already catches.) -/
def DungeonMaster.create_scene (dm : DungeonMaster) (st : Store) (gs : GameState)
    (target_scene_id : Option String) (gen : Except String RawSceneData) :
    Store × DungeonMaster × Except PyErr Scene :=
  match gs.current_scene, truthyOpt target_scene_id with
  | none, none =>
      (match dm.scenario.starting_scene_id with
       | none => (st, dm, .error (.keyError "starting_scene_id"))
       | some ssid =>
           let p := dm.create_scene_from_scenario st ssid
           (p.1, dm, p.2))
  | _, some t =>
      (match lookupKey (dm.scenario.scenes.getD []) t with
       | some _ =>
           let p := dm.create_scene_from_scenario st t
           (p.1, dm, p.2)
       | none =>
           match lookupKey dm.scene_memory t with
           | some data =>
               let p := create_scene_from_data st data none
               (p.1, dm, p.2)
           | none => dm.generate_new_scene st gs t gen)
  | some cur, none => (st, dm, .ok cur)

/-- Method `_validate_action_result`: success and description must be present. -/
def validate_action_result (r : ActionResult) : Bool :=
  r.success.isSome && r.description.isSome

/-- Function `call_llm_with_json_response` for the action-resolution request
(validator included, as in the source). -/
def callLLMAction (gen : Except String ActionResult) : Except String ActionResult :=
  match gen with
  | .error e => .error e
  | .ok raw =>
      if validate_action_result raw then .ok raw
      else .error "Error making LLM call: missing required field"

/-- Method `resolve_action(action, game_state)`: returns the validated resolution
dict, or — the call being the only raising statement — a structured
failure dict with `success = False` and a non-empty description.  Total by
construction: every exception is caught inside the method. -/
def DungeonMaster.resolve_action (dm : DungeonMaster) (action : String)
    (gs : GameState) (gen : Except String ActionResult) : ActionResult :=
  match callLLMAction gen with
  | .ok res => res
  | .error e =>
      { success := some false,
        description := some
          ("I\x27m having trouble understanding what happened. Let\x27s try again. Error: " ++ e),
        error := some e }

/-! ## Association-list lemmas -/

theorem lookupKey_nil {α : Type} (k : String) :
    lookupKey ([] : List (String × α)) k = none := rfl

theorem lookupKey_cons {α : Type} (a : String) (b : α) (l : List (String × α))
    (k : String) :
    lookupKey ((a, b) :: l) k = if a == k then some b else lookupKey l k := by
  by_cases h : a == k <;> simp [lookupKey, List.find?, h]

theorem lookupKey_append {α : Type} (l₁ l₂ : List (String × α)) (k : String) :
    lookupKey (l₁ ++ l₂) k = (lookupKey l₁ k).or (lookupKey l₂ k) := by
  induction l₁ with
  | nil => simp [lookupKey]
  | cons p t ih =>
      rcases p with ⟨a, b⟩
      by_cases h : a == k <;>
        simp [lookupKey_cons, h, ih]

theorem delKey_cons {α : Type} (a : String) (b : α) (t : List (String × α))
    (k : String) :
    delKey ((a, b) :: t) k =
      if a == k then delKey t k else (a, b) :: delKey t k := by
  cases h : a == k
  · have h' : a ≠ k := by simpa using h
    simp [delKey, List.filter_cons, h, h']
  · have h' : a = k := by simpa using h
    simp [delKey, List.filter_cons, h, h']

theorem lookupKey_delKey_self {α : Type} (l : List (String × α)) (k : String) :
    lookupKey (delKey l k) k = none := by
  induction l with
  | nil => rfl
  | cons p t ih =>
      rcases p with ⟨a, b⟩
      rw [delKey_cons]
      cases h : a == k
      · rw [if_neg (by simp [h]), lookupKey_cons, if_neg (by simp [h])]
        exact ih
      · rw [if_pos (by simp [h])]
        exact ih

theorem lookupKey_delKey_ne {α : Type} (l : List (String × α)) {k k' : String}
    (h : k ≠ k') : lookupKey (delKey l k') k = lookupKey l k := by
  induction l with
  | nil => rfl
  | cons p t ih =>
      rcases p with ⟨a, b⟩
      rw [delKey_cons]
      cases ha : a == k'
      · rw [if_neg (by simp [ha]), lookupKey_cons, lookupKey_cons]
        cases hak : a == k
        · rw [if_neg (by simp [hak]), if_neg (by simp [hak])]
          exact ih
        · rw [if_pos (by simp [hak]), if_pos (by simp [hak])]
      · have ha' : a = k' := by simpa using ha
        rw [if_pos (by simp [ha]), lookupKey_cons,
            if_neg (by simp only [beq_iff_eq, ha']; exact fun hk => h hk.symm)]
        exact ih

theorem lookupKey_map_set_self {α : Type} (l : List (String × α)) (k : String)
    (v : α) (h : keyIn l k = true) :
    lookupKey (l.map (fun p => if p.1 == k then (k, v) else p)) k = some v := by
  induction l with
  | nil => simp [keyIn, lookupKey] at h
  | cons p t ih =>
      rcases p with ⟨a, b⟩
      cases ha : a == k
      · simp only [List.map]
        rw [show (if ((a, b) : String × α).1 == k then (k, v) else (a, b)) = (a, b) by
              simp [ha]]
        rw [lookupKey_cons, if_neg (by simp [ha])]
        refine ih ?_
        unfold keyIn at h ⊢
        rwa [lookupKey_cons, if_neg (by simp [ha])] at h
      · simp only [List.map]
        rw [show (if ((a, b) : String × α).1 == k then (k, v) else (a, b)) = (k, v) by
              simp [ha]]
        rw [lookupKey_cons, if_pos (by simp)]

theorem lookupKey_setKey_self {α : Type} (l : List (String × α)) (k : String)
    (v : α) : lookupKey (setKey l k v) k = some v := by
  unfold setKey
  cases hin : keyIn l k
  · rw [if_neg (by simp [hin]), lookupKey_append]
    unfold keyIn at hin
    rcases ho : lookupKey l k with _ | w
    · simp [lookupKey_cons]
    · rw [ho] at hin
      simp at hin
  · rw [if_pos (by simp [hin])]
    exact lookupKey_map_set_self l k v hin

theorem lookupKey_map_set_ne {α : Type} (l : List (String × α)) {k k' : String}
    (v : α) (h : k ≠ k') :
    lookupKey (l.map (fun p => if p.1 == k' then (k', v) else p)) k = lookupKey l k := by
  induction l with
  | nil => rfl
  | cons p t ih =>
      rcases p with ⟨a, b⟩
      cases ha : a == k'
      · simp only [List.map]
        rw [show (if ((a, b) : String × α).1 == k' then (k', v) else (a, b)) = (a, b) by
              simp [ha]]
        rw [lookupKey_cons, lookupKey_cons]
        cases hak : a == k
        · rw [if_neg (by simp [hak]), if_neg (by simp [hak])]
          exact ih
        · rw [if_pos (by simp [hak]), if_pos (by simp [hak])]
      · simp only [List.map]
        rw [show (if ((a, b) : String × α).1 == k' then (k', v) else (a, b)) = (k', v) by
              simp [ha]]
        have ha' : a = k' := by simpa using ha
        rw [lookupKey_cons, lookupKey_cons,
            if_neg (by simp only [beq_iff_eq]; exact fun hk => h hk.symm),
            if_neg (by simp only [beq_iff_eq, ha']; exact fun hk => h hk.symm)]
        exact ih

theorem lookupKey_setKey_ne {α : Type} (l : List (String × α)) {k k' : String}
    (v : α) (h : k ≠ k') : lookupKey (setKey l k' v) k = lookupKey l k := by
  unfold setKey
  cases hin : keyIn l k'
  · rw [if_neg (by simp [hin]), lookupKey_append]
    rw [lookupKey_cons, if_neg (by simp only [beq_iff_eq]; exact fun hk => h hk.symm),
        lookupKey_nil]
    rcases ho : lookupKey l k with _ | w <;> simp
  · rw [if_pos (by simp [hin])]
    exact lookupKey_map_set_ne l v h

theorem keyIn_setKey_ne {α : Type} (l : List (String × α)) {k k' : String}
    (v : α) (h : k ≠ k') : keyIn (setKey l k' v) k = keyIn l k := by
  unfold keyIn
  rw [lookupKey_setKey_ne l v h]

theorem keyIn_delKey_ne {α : Type} (l : List (String × α)) {k k' : String}
    (h : k ≠ k') : keyIn (delKey l k') k = keyIn l k := by
  unfold keyIn
  rw [lookupKey_delKey_ne l h]

/-! ## Status-merge lemmas (`Character.update` / `NPC.update` loops) -/

theorem lookupKey_statusStep_ne (st : List (String × Option String))
    {k k' : String} (v' : Option String) (h : k ≠ k') :
    lookupKey (statusStep st (k', v')) k = lookupKey st k := by
  unfold statusStep
  by_cases hc : v'.isNone && keyIn st k'
  · rw [if_pos hc]
    exact lookupKey_delKey_ne st h
  · rw [if_neg hc]
    exact lookupKey_setKey_ne st v' h

theorem lookupKey_foldl_statusStep (entries : List (String × Option String))
    (st : List (String × Option String)) (k : String)
    (h : ∀ p ∈ entries, p.1 ≠ k) :
    lookupKey (entries.foldl statusStep st) k = lookupKey st k := by
  induction entries generalizing st with
  | nil => rfl
  | cons p t ih =>
      rcases p with ⟨k', v'⟩
      rw [List.foldl_cons]
      rw [ih _ (fun q hq => h q (List.mem_cons_of_mem _ hq))]
      exact lookupKey_statusStep_ne st v'
        (fun hk => h (k', v') (List.mem_cons_self _ _) (hk ▸ rfl))

theorem keyIn_statusStep_ne (st : List (String × Option String))
    {k k' : String} (v' : Option String) (h : k ≠ k') :
    keyIn (statusStep st (k', v')) k = keyIn st k := by
  unfold keyIn
  rw [lookupKey_statusStep_ne st v' h]

theorem keyIn_foldl_statusStep (entries st : List (String × Option String))
    (k : String) (h : ∀ p ∈ entries, p.1 ≠ k) :
    keyIn (entries.foldl statusStep st) k = keyIn st k := by
  unfold keyIn
  rw [lookupKey_foldl_statusStep entries st k h]

theorem nodup_head_ne {v : Option String} {k k0 : String}
    {t : List (String × Option String)}
    (hhead : k0 ∉ t.map Prod.fst) (hmem : (k, v) ∈ t) : k0 ≠ k := by
  intro hk
  exact hhead (hk ▸ List.mem_map_of_mem Prod.fst hmem)

theorem tail_keys_ne {k : String} {t : List (String × Option String)}
    (hhead : k ∉ t.map Prod.fst) : ∀ p ∈ t, p.1 ≠ k := by
  intro p hp hpk
  exact hhead (hpk ▸ List.mem_map_of_mem Prod.fst hp)

/-- Processing a status dict containing `k ↦ some v` (keys unique, as for a
Python dict) leaves `k ↦ some v` in the result. -/
theorem foldl_statusStep_lookup_some (entries st : List (String × Option String))
    (k v : String) (hnd : (entries.map Prod.fst).Nodup)
    (hmem : (k, some v) ∈ entries) :
    lookupKey (entries.foldl statusStep st) k = some (some v) := by
  induction entries generalizing st with
  | nil => cases hmem
  | cons p t ih =>
      rcases p with ⟨k0, v0⟩
      rw [List.map_cons, List.nodup_cons] at hnd
      rw [List.foldl_cons]
      rcases List.mem_cons.mp hmem with heq | hmem'
      · injection heq with h1 h2
        subst h1
        subst h2
        rw [lookupKey_foldl_statusStep t _ k (tail_keys_ne hnd.1)]
        unfold statusStep
        rw [if_neg (by simp)]
        exact lookupKey_setKey_self st k (some v)
      · exact ih _ hnd.2 hmem'

/-- Processing a status dict containing `k ↦ None` removes a previously
present key `k`. -/
theorem foldl_statusStep_removes (entries st : List (String × Option String))
    (k : String) (hnd : (entries.map Prod.fst).Nodup)
    (hmem : (k, none) ∈ entries) (hin : keyIn st k = true) :
    keyIn (entries.foldl statusStep st) k = false := by
  induction entries generalizing st with
  | nil => cases hmem
  | cons p t ih =>
      rcases p with ⟨k0, v0⟩
      rw [List.map_cons, List.nodup_cons] at hnd
      rw [List.foldl_cons]
      rcases List.mem_cons.mp hmem with heq | hmem'
      · injection heq with h1 h2
        subst h1
        subst h2
        rw [keyIn_foldl_statusStep t _ k (tail_keys_ne hnd.1)]
        unfold statusStep
        rw [if_pos (by simp [hin])]
        unfold keyIn
        rw [lookupKey_delKey_self]
        rfl
      · have hne : k0 ≠ k := nodup_head_ne hnd.1 hmem'
        refine ih _ hnd.2 hmem' ?_
        rw [keyIn_statusStep_ne st v0 (fun hk => hne hk.symm)]
        exact hin

/-- Processing a status dict containing `k ↦ None` for an *absent* key `k`
stores the sentinel itself: afterwards `k` maps to `None`. -/
theorem foldl_statusStep_null_insert (entries st : List (String × Option String))
    (k : String) (hnd : (entries.map Prod.fst).Nodup)
    (hmem : (k, none) ∈ entries) (hout : keyIn st k = false) :
    lookupKey (entries.foldl statusStep st) k = some none := by
  induction entries generalizing st with
  | nil => cases hmem
  | cons p t ih =>
      rcases p with ⟨k0, v0⟩
      rw [List.map_cons, List.nodup_cons] at hnd
      rw [List.foldl_cons]
      rcases List.mem_cons.mp hmem with heq | hmem'
      · injection heq with h1 h2
        subst h1
        subst h2
        rw [lookupKey_foldl_statusStep t _ k (tail_keys_ne hnd.1)]
        unfold statusStep
        rw [if_neg (by simp [hout])]
        exact lookupKey_setKey_self st k none
      · have hne : k0 ≠ k := nodup_head_ne hnd.1 hmem'
        refine ih _ hnd.2 hmem' ?_
        rw [keyIn_statusStep_ne st v0 (fun hk => hne hk.symm)]
        exact hout

/-! ## `Character.update` projections -/

/-- Inventory after the `add_items` block, before `remove_items`. -/
def inventoryAfterAdds (c : Character) (u : CharUpdates) : List Item :=
  match u.add_items with
  | some items => c.inventory ++ items.map ItemData.toItem
  | none => c.inventory

theorem Character.update_status_eq (c : Character) (u : CharUpdates) :
    (c.update u).status =
      match u.status with
      | some entries => entries.foldl statusStep c.status
      | none => c.status := by
  rcases u with ⟨uh, ue, us, ua, ur, uat, up⟩
  cases uh <;> cases ue <;> cases us <;> cases ua <;> cases ur <;> rfl

theorem Character.update_inventory_eq (c : Character) (u : CharUpdates) :
    (c.update u).inventory =
      match u.remove_items with
      | some names =>
          names.foldl (fun inv n => inv.filter (fun it => it.name != n))
            (inventoryAfterAdds c u)
      | none => inventoryAfterAdds c u := by
  rcases u with ⟨uh, ue, us, ua, ur, uat, up⟩
  cases uh <;> cases ue <;> cases us <;> cases ua <;> cases ur <;> rfl

theorem Character.update_name_eq (c : Character) (u : CharUpdates) :
    (c.update u).name = c.name := by
  rcases u with ⟨uh, ue, us, ua, ur, uat, up⟩
  cases uh <;> cases ue <;> cases us <;> cases ua <;> cases ur <;> rfl

theorem NPC.update_keeps_name (c : NPC) (u : CharUpdates) :
    (NPC.update c u).name = c.name := by
  have hbase : ∀ n : NPC, (NPC.update c u).toCharacter.name
      = (c.toCharacter.update u).name := by
    intro n
    unfold NPC.update
    cases u.attitude <;> cases u.properties <;> rfl
  calc (NPC.update c u).name
      = (c.toCharacter.update u).name := hbase c
    _ = c.name := Character.update_name_eq c.toCharacter u

/-! ## Inventory removal lemmas -/

theorem foldl_filter_names (names : List String) (inv : List Item) :
    names.foldl (fun inv n => inv.filter (fun it => it.name != n)) inv
      = inv.filter (fun it => !(names.contains it.name)) := by
  induction names generalizing inv with
  | nil => simp
  | cons n ns ih =>
      rw [List.foldl_cons, ih, List.filter_filter]
      congr 1
      funext it
      by_cases h1 : it.name = n <;> by_cases h2 : ns.contains it.name <;>
        simp [List.contains_cons, h1, h2]

/-! ## Claim C5 -/

/-- C5: for every character and delta whose status map (unique keys, as in
any Python dict) assigns `None` to a key currently present in the
character's status, `Character.update` removes that key; every key
assigned a non-null value is upserted with that value. -/
theorem character_update_status_merge (c : Character) (u : CharUpdates)
    (entries : List (String × Option String)) (k : String)
    (hs : u.status = some entries) (hnd : (entries.map Prod.fst).Nodup) :
    ((k, none) ∈ entries → keyIn c.status k = true →
        keyIn (c.update u).status k = false) ∧
    (∀ v : String, (k, some v) ∈ entries →
        lookupKey (c.update u).status k = some (some v)) := by
  constructor
  · intro hmem hin
    rw [Character.update_status_eq, hs]
    exact foldl_statusStep_removes entries c.status k hnd hmem hin
  · intro v hmem
    rw [Character.update_status_eq, hs]
    exact foldl_statusStep_lookup_some entries c.status k v hnd hmem

def c5c : Character :=
  { name := "Hero", description := "d",
    status := [("X", some "poisoned"), ("Y", some "slow")] }

def c5entries : List (String × Option String) :=
  [("X", none), ("Z", some "blessed")]

def c5u : CharUpdates := { status := some c5entries }

/-- Witness for C5 at a concrete character and delta. -/
theorem character_update_status_merge_witness :
    keyIn (Character.update c5c c5u).status "X" = false ∧
    lookupKey (Character.update c5c c5u).status "Z" = some (some "blessed") := by
  constructor
  · exact (character_update_status_merge c5c c5u c5entries "X" rfl (by decide)).1
      (by decide) (by decide)
  · exact (character_update_status_merge c5c c5u c5entries "Z" rfl (by decide)).2
      "blessed" (by decide)

/-! ## Claim C9 -/

/-- C9: a `None` status value for a key *not* currently present inserts the
key with value `None` (the null sentinel is upserted, not ignored). -/
theorem character_update_status_null_upsert (c : Character) (u : CharUpdates)
    (entries : List (String × Option String)) (k : String)
    (hs : u.status = some entries) (hnd : (entries.map Prod.fst).Nodup)
    (hmem : (k, none) ∈ entries) (habs : keyIn c.status k = false) :
    lookupKey (c.update u).status k = some none := by
  rw [Character.update_status_eq, hs]
  exact foldl_statusStep_null_insert entries c.status k hnd hmem habs

def c9c : Character := { name := "Hero", description := "d" }

def c9u : CharUpdates := { status := some [("X", none)] }

/-- Witness for C9: the absent key "X" ends up present, bound to `None`. -/
theorem character_update_status_null_upsert_witness :
    lookupKey (Character.update c9c c9u).status "X" = some none :=
  character_update_status_null_upsert c9c c9u [("X", none)] "X" rfl
    (by decide) (by decide) (by decide)

/-! ## Claim C6 -/

/-- C6: every name listed in `remove_items` is removed from the inventory
entirely (all occurrences), and the remaining items are exactly the
original items (after the `add_items` appends) with other names, in their
original order. -/
theorem character_update_remove_items (c : Character) (u : CharUpdates)
    (names : List String) (hr : u.remove_items = some names) :
    (c.update u).inventory
        = (inventoryAfterAdds c u).filter (fun it => !(names.contains it.name)) ∧
    ∀ n ∈ names, ∀ it ∈ (c.update u).inventory, it.name ≠ n := by
  have h1 : (c.update u).inventory
      = (inventoryAfterAdds c u).filter (fun it => !(names.contains it.name)) := by
    rw [Character.update_inventory_eq, hr]
    exact foldl_filter_names names _
  refine ⟨h1, ?_⟩
  intro n hn it hit
  rw [h1] at hit
  have hp := (List.mem_filter.mp hit).2
  intro hname
  rw [hname] at hp
  have hc : names.contains n = true := List.elem_iff.mpr hn
  rw [hc] at hp
  cases hp

def c6rope1 : Item := { name := "Rope", description := "hemp" }

def c6torch : Item := { name := "Torch", description := "lit" }

def c6rope2 : Item := { name := "Rope", description := "silk" }

def c6c : Character :=
  { name := "Hero", description := "d", inventory := [c6rope1, c6torch, c6rope2] }

def c6u : CharUpdates := { remove_items := some ["Rope"] }

/-- Witness for C6: both "Rope" items vanish, the torch survives. -/
theorem character_update_remove_items_witness :
    (Character.update c6c c6u).inventory = [c6torch] := by
  have h := character_update_remove_items c6c c6u ["Rope"] rfl
  rw [h.1]
  rfl

/-! ## `GameState.update` block lemmas -/

theorem applyPlayerUpdates_is_game_over (gs : GameState) (r : ActionResult) :
    (applyPlayerUpdates gs r).is_game_over = gs.is_game_over := by
  unfold applyPlayerUpdates
  cases gs.player <;> cases r.player_updates <;> rfl

theorem applyPlayerUpdates_current_scene (gs : GameState) (r : ActionResult) :
    (applyPlayerUpdates gs r).current_scene = gs.current_scene := by
  unfold applyPlayerUpdates
  cases gs.player <;> cases r.player_updates <;> rfl

theorem applyCharacterUpdates_is_game_over (gs : GameState) (r : ActionResult) :
    (applyCharacterUpdates gs r).is_game_over = gs.is_game_over := by
  unfold applyCharacterUpdates
  cases gs.current_scene <;> cases r.character_updates <;> rfl

theorem applySceneUpdates_is_game_over (st : Store) (gs : GameState)
    (r : ActionResult) :
    (applySceneUpdates st gs r).2.is_game_over = gs.is_game_over := by
  unfold applySceneUpdates
  cases gs.current_scene <;> cases r.scene_updates <;> rfl

theorem applyMove_is_game_over (gs : GameState) (r : ActionResult) :
    (applyMove gs r).is_game_over = gs.is_game_over := by
  unfold applyMove
  by_cases h : truthy r.move_to_scene
  · rw [if_pos h]
    cases gs.current_scene <;> rfl
  · rw [if_neg h]

theorem applyMove_current_scene (gs : GameState) (r : ActionResult) :
    (applyMove gs r).current_scene = gs.current_scene := by
  unfold applyMove
  by_cases h : truthy r.move_to_scene
  · rw [if_pos h]
    cases hc : gs.current_scene <;> simp [hc]
  · rw [if_neg h]

theorem applyGameOver_current_scene (gs : GameState) (r : ActionResult) :
    (applyGameOver gs r).current_scene = gs.current_scene := by
  unfold applyGameOver
  by_cases h : r.game_over = some true
  · rw [if_pos h]
  · rw [if_neg h]

theorem applyPlayerUpdates_ending_message (gs : GameState) (r : ActionResult) :
    (applyPlayerUpdates gs r).ending_message = gs.ending_message := by
  unfold applyPlayerUpdates
  cases gs.player <;> cases r.player_updates <;> rfl

theorem applyCharacterUpdates_ending_message (gs : GameState) (r : ActionResult) :
    (applyCharacterUpdates gs r).ending_message = gs.ending_message := by
  unfold applyCharacterUpdates
  cases gs.current_scene <;> cases r.character_updates <;> rfl

theorem applySceneUpdates_ending_message (st : Store) (gs : GameState)
    (r : ActionResult) :
    (applySceneUpdates st gs r).2.ending_message = gs.ending_message := by
  unfold applySceneUpdates
  cases gs.current_scene <;> cases r.scene_updates <;> rfl

theorem applyMove_ending_message (gs : GameState) (r : ActionResult) :
    (applyMove gs r).ending_message = gs.ending_message := by
  unfold applyMove
  by_cases h : truthy r.move_to_scene
  · rw [if_pos h]
    cases gs.current_scene <;> rfl
  · rw [if_neg h]

theorem GameState.update_snd (gs : GameState) (st : Store) (r : ActionResult) :
    (gs.update st r).2 =
      applyGameOver
        (applyMove
          (applySceneUpdates st (applyCharacterUpdates (applyPlayerUpdates gs r) r) r).2 r) r :=
  rfl

/-! ## Claim C7 -/

/-- C7: a result with `game_over = true` sets the terminal flag and stores
the supplied ending message (default `"Game Over"`); and no update ever
resets the flag — `ended` is terminal. -/
theorem game_state_update_game_over (gs : GameState) (st : Store)
    (r : ActionResult) :
    (r.game_over = some true →
        (gs.update st r).2.is_game_over = true ∧
        (gs.update st r).2.ending_message = r.ending_message.getD "Game Over") ∧
    (gs.is_game_over = true → (gs.update st r).2.is_game_over = true) := by
  constructor
  · intro h
    rw [GameState.update_snd]
    unfold applyGameOver
    rw [if_pos h]
    exact ⟨rfl, rfl⟩
  · intro h
    rw [GameState.update_snd]
    unfold applyGameOver
    by_cases hg : r.game_over = some true
    · rw [if_pos hg]
    · rw [if_neg hg, applyMove_is_game_over, applySceneUpdates_is_game_over,
          applyCharacterUpdates_is_game_over, applyPlayerUpdates_is_game_over]
      exact h

def c7r : ActionResult :=
  { success := some false, description := some "You fall.",
    game_over := some true, ending_message := some "You died." }

def c7r2 : ActionResult := { success := some true, description := some "ok" }

def c7gs2 : GameState := { is_game_over := true, ending_message := "done" }

/-- Witness for C7: the flag is set with the exact message, and a later
update without `game_over` leaves the flag set. -/
theorem game_state_update_game_over_witness :
    (GameState.update {} {} c7r).2.is_game_over = true ∧
    (GameState.update {} {} c7r).2.ending_message = "You died." ∧
    (GameState.update c7gs2 {} c7r2).2.is_game_over = true := by
  refine ⟨((game_state_update_game_over {} {} c7r).1 rfl).1, ?_, ?_⟩
  · exact ((game_state_update_game_over {} {} c7r).1 rfl).2
  · exact (game_state_update_game_over c7gs2 {} c7r2).2 rfl

/-! ## Claim C8: name sets under `GameState.update` -/

/-- The character names of the current scene (empty when none). -/
def currentNames (gs : GameState) : List String :=
  match gs.current_scene with
  | some s => s.characters.map (fun c => c.name)
  | none => []

theorem currentNames_eq_of (a b : GameState)
    (h : a.current_scene = b.current_scene) : currentNames a = currentNames b := by
  unfold currentNames
  rw [h]

theorem updateNamedCharacter_names (cs : List NPC) (n : String) (u : CharUpdates) :
    (updateNamedCharacter cs n u).map (fun c => c.name)
      = cs.map (fun c => c.name) := by
  induction cs with
  | nil => rfl
  | cons c t ih =>
      unfold updateNamedCharacter
      by_cases h : c.name == n
      · rw [if_pos h]
        simp [NPC.update_keeps_name]
      · rw [if_neg h]
        simp [ih]

theorem charUpdateFold_names (cus : List (String × CharUpdates)) (s : Scene) :
    ((cus.foldl (fun sc p =>
        { sc with characters := updateNamedCharacter sc.characters p.1 p.2 }) s).characters.map
          (fun c => c.name))
      = s.characters.map (fun c => c.name) := by
  induction cus generalizing s with
  | nil => rfl
  | cons p t ih =>
      rw [List.foldl_cons, ih]
      simp [updateNamedCharacter_names]

theorem addCharactersFold_names (ds : List AddCharData) (s : Scene) :
    ((ds.foldl (fun sc d => sc.add_character d.toNPC) s).characters.map
        (fun c => c.name))
      = s.characters.map (fun c => c.name) ++ ds.map AddCharData.name := by
  induction ds generalizing s with
  | nil => simp
  | cons d t ih =>
      rw [List.foldl_cons, ih]
      simp [Scene.add_character, AddCharData.toNPC]

theorem removeCharactersFold_sublist (ns : List String) (s : Scene) :
    ((ns.foldl (fun sc n => sc.remove_character n) s).characters.map
        (fun c => c.name)).Sublist
      (s.characters.map (fun c => c.name)) := by
  induction ns generalizing s with
  | nil => exact List.Sublist.refl _
  | cons n t ih =>
      rw [List.foldl_cons]
      refine (ih _).trans ?_
      exact ((List.filter_sublist _).map _)

theorem applyCharacterUpdates_current (gs : GameState) (r : ActionResult)
    (s : Scene) (hs : gs.current_scene = some s) :
    ∃ s2, (applyCharacterUpdates gs r).current_scene = some s2 ∧
      s2.characters.map (fun c => c.name) = s.characters.map (fun c => c.name) := by
  unfold applyCharacterUpdates
  rw [hs]
  cases hcu : r.character_updates with
  | none => exact ⟨s, hs, rfl⟩
  | some cus => exact ⟨_, rfl, charUpdateFold_names cus s⟩

theorem applySceneUpdates_names_nodup (st : Store) (gs : GameState)
    (r : ActionResult) (s : Scene) (hs : gs.current_scene = some s)
    (hnd : (s.characters.map (fun c => c.name)).Nodup)
    (hadds : ∀ su adds, r.scene_updates = some su → su.add_characters = some adds →
        (adds.map AddCharData.name).Nodup ∧
        ∀ d ∈ adds, d.name ∉ s.characters.map (fun c => c.name)) :
    (currentNames (applySceneUpdates st gs r).2).Nodup := by
  unfold applySceneUpdates
  rw [hs]
  cases hsu : r.scene_updates with
  | none =>
      unfold currentNames
      rw [hs]
      exact hnd
  | some su =>
      cases had : su.add_characters with
      | none =>
          cases hrem : su.remove_characters with
          | none => simpa [currentNames, had, hrem] using hnd
          | some ns =>
              simpa [currentNames, had, hrem] using
                (removeCharactersFold_sublist ns s).nodup hnd
      | some ds =>
          have hd := hadds su ds hsu had
          have hadded : ((ds.foldl
              (fun (sc : Scene) (d : AddCharData) => sc.add_character d.toNPC)
              s).characters.map (fun c => c.name)).Nodup := by
            rw [addCharactersFold_names]
            refine List.Nodup.append hnd hd.1 ?_
            intro a ha hamem
            rcases List.mem_map.mp hamem with ⟨d, hdmem, hdname⟩
            exact (hd.2 d hdmem) (hdname ▸ ha)
          cases hrem : su.remove_characters with
          | none => simpa [currentNames, had, hrem] using hadded
          | some ns =>
              simpa [currentNames, had, hrem] using
                (removeCharactersFold_sublist ns _).nodup hadded

/-- C8 (amended): `Scene.add_character` and the `add_characters` path of
`GameState.update` append without any uniqueness check, so name
uniqueness in the current scene is preserved only when the added names are
themselves distinct and not already present. -/
theorem game_state_update_name_uniqueness (gs : GameState) (st : Store)
    (r : ActionResult) (s : Scene) (hs : gs.current_scene = some s)
    (hnd : (s.characters.map (fun c => c.name)).Nodup)
    (hadds : ∀ su adds, r.scene_updates = some su → su.add_characters = some adds →
        (adds.map AddCharData.name).Nodup ∧
        ∀ d ∈ adds, d.name ∉ s.characters.map (fun c => c.name)) :
    (currentNames (gs.update st r).2).Nodup := by
  rw [GameState.update_snd]
  rw [currentNames_eq_of _ _ (applyGameOver_current_scene _ r)]
  rw [currentNames_eq_of _ _ (applyMove_current_scene _ r)]
  have hs1 : (applyPlayerUpdates gs r).current_scene = some s := by
    rw [applyPlayerUpdates_current_scene, hs]
  rcases applyCharacterUpdates_current (applyPlayerUpdates gs r) r s hs1 with
    ⟨s2, hs2, hnames⟩
  refine applySceneUpdates_names_nodup st _ r s2 hs2 (hnames ▸ hnd) ?_
  intro su adds hsu hadd
  have := hadds su adds hsu hadd
  rw [hnames]
  exact this

def c8bob : NPC := { name := "Bob", description := "guard" }

def c8scene : Scene :=
  { id := "entrance", title := "Gate", description := "A gate.",
    characters := [c8bob], connections := 0 }

def c8gs : GameState := { current_scene := some c8scene }

def c8r : ActionResult :=
  { success := some true, description := some "ok",
    scene_updates := some
      { add_characters := some [{ name := "Bob", description := "twin" }] } }

/-- Counterexample for C8 as stated: adding a character whose name is
already present yields a scene with two characters named "Bob". -/
theorem game_state_update_duplicate_names :
    ¬ (currentNames (GameState.update c8gs ⟨[[]]⟩ c8r).2).Nodup := by decide

def c8wr : ActionResult :=
  { success := some true, description := some "ok",
    scene_updates := some
      { add_characters := some [{ name := "Alice", description := "new" }] } }

/-- Witness for the amended C8 at a concrete state: adding a fresh name
keeps the names unique. -/
theorem game_state_update_name_uniqueness_witness :
    (currentNames (GameState.update c8gs ⟨[[]]⟩ c8wr).2).Nodup := by
  refine game_state_update_name_uniqueness c8gs ⟨[[]]⟩ c8wr c8scene rfl
    (by decide) ?_
  intro su adds hsu hadd
  injection hsu with h1
  subst h1
  injection hadd with h2
  subst h2
  exact ⟨by decide, by decide⟩

/-! ## Claim C3 -/

/-- C3: `resolve_action` never raises (it is a total function here because
every exception inside the method body is caught by the two `except`
blocks), and whenever the generation call fails — transport, parse or
validation — the returned record has `success = False` and a non-empty
description. -/
theorem resolve_action_failure_safe (dm : DungeonMaster) (action : String)
    (gs : GameState) (gen : Except String ActionResult)
    (hfail : isErr (callLLMAction gen) = true) :
    (dm.resolve_action action gs gen).success = some false ∧
    ∃ d, (dm.resolve_action action gs gen).description = some d ∧ d ≠ "" := by
  unfold DungeonMaster.resolve_action
  cases hc : callLLMAction gen with
  | ok res =>
      rw [hc] at hfail
      simp [isErr] at hfail
  | error e =>
      refine ⟨rfl, _, rfl, ?_⟩
      intro h
      have hp : (0 : Nat) <
          ("I\x27m having trouble understanding what happened. Let\x27s try again. Error: " : String).length := by
        decide
      have hl := congrArg String.length h
      rw [String.length_append] at hl
      rw [show ("" : String).length = 0 from rfl] at hl
      omega

/-- Witness for C3 at a concrete failing transport. -/
theorem resolve_action_failure_safe_witness :
    (DungeonMaster.resolve_action {} "look" {} (Except.error "boom")).success
        = some false ∧
    (DungeonMaster.resolve_action {} "look" {} (Except.error "boom")).description
        ≠ some "" := by
  have h := resolve_action_failure_safe {} "look" {} (Except.error "boom") (by decide)
  refine ⟨h.1, ?_⟩
  rcases h.2 with ⟨d, hd, hne⟩
  rw [hd]
  intro hcontra
  injection hcontra with h2
  exact hne h2

/-! ## Construction-success lemmas -/

/-- A raw item dict that constructs without `KeyError`. -/
def RawItemData.buildOk (d : RawItemData) : Bool :=
  d.name.isSome && d.description.isSome

/-- A raw skill dict that constructs without `KeyError`. -/
def SkillData.buildOk (d : SkillData) : Bool :=
  d.name.isSome && d.description.isSome && d.cost.isSome

/-- A raw character dict that constructs without `KeyError`. -/
def CharData.buildOk (d : CharData) : Bool :=
  d.name.isSome && d.description.isSome &&
  (d.inventory.getD []).all RawItemData.buildOk &&
  (d.skills.getD []).all SkillData.buildOk

/-- A raw scene dict whose entity construction succeeds (given a truthy
scene id): title and description present, characters well-formed. -/
def SceneData.buildOk (d : SceneData) : Bool :=
  d.title.isSome && d.description.isSome &&
  (d.characters.getD []).all CharData.buildOk

theorem buildItems_ok (l : List RawItemData)
    (h : l.all RawItemData.buildOk = true) :
    ∃ its, buildItems l = Except.ok its := by
  induction l with
  | nil => exact ⟨[], rfl⟩
  | cons d ds ih =>
      rw [List.all_cons, Bool.and_eq_true] at h
      have hd := h.1
      rw [RawItemData.buildOk, Bool.and_eq_true] at hd
      rcases Option.isSome_iff_exists.mp hd.1 with ⟨n, hn⟩
      rcases Option.isSome_iff_exists.mp hd.2 with ⟨de, hde⟩
      rcases ih h.2 with ⟨its, hits⟩
      have : buildItems (d :: ds)
          = Except.ok (⟨n, de, d.properties.getD []⟩ :: its) := by
        unfold buildItems buildItem
        rw [hn, hde, hits]
      exact ⟨_, this⟩

theorem buildSkills_ok (l : List SkillData)
    (h : l.all SkillData.buildOk = true) :
    ∃ sks, buildSkills l = Except.ok sks := by
  induction l with
  | nil => exact ⟨[], rfl⟩
  | cons d ds ih =>
      rw [List.all_cons, Bool.and_eq_true] at h
      have hd := h.1
      rw [SkillData.buildOk, Bool.and_eq_true, Bool.and_eq_true] at hd
      rcases Option.isSome_iff_exists.mp hd.1.1 with ⟨n, hn⟩
      rcases Option.isSome_iff_exists.mp hd.1.2 with ⟨de, hde⟩
      rcases Option.isSome_iff_exists.mp hd.2 with ⟨co, hco⟩
      rcases ih h.2 with ⟨sks, hsks⟩
      have : buildSkills (d :: ds)
          = Except.ok (⟨n, de, co, d.properties.getD []⟩ :: sks) := by
        unfold buildSkills buildSkill
        rw [hn, hde, hco, hsks]
      exact ⟨_, this⟩

theorem buildNPC_ok (d : CharData) (h : d.buildOk = true) :
    ∃ n, buildNPC d = Except.ok n := by
  rw [CharData.buildOk, Bool.and_eq_true, Bool.and_eq_true, Bool.and_eq_true] at h
  rcases Option.isSome_iff_exists.mp h.1.1.1 with ⟨n, hn⟩
  rcases Option.isSome_iff_exists.mp h.1.1.2 with ⟨de, hde⟩
  rcases buildItems_ok _ h.1.2 with ⟨inv, hinv⟩
  rcases buildSkills_ok _ h.2 with ⟨sks, hsks⟩
  have : buildNPC d = Except.ok
      { name := n, description := de, inventory := inv, skills := sks,
        attitude := d.attitude.getD "neutral" } := by
    unfold buildNPC
    rw [hinv, hsks, hn, hde]
  exact ⟨_, this⟩

theorem buildNPCs_ok (l : List CharData) (h : l.all CharData.buildOk = true) :
    ∃ ns, buildNPCs l = Except.ok ns := by
  induction l with
  | nil => exact ⟨[], rfl⟩
  | cons d ds ih =>
      rw [List.all_cons, Bool.and_eq_true] at h
      rcases buildNPC_ok d h.1 with ⟨n, hn⟩
      rcases ih h.2 with ⟨ns, hns⟩
      have : buildNPCs (d :: ds) = Except.ok (n :: ns) := by
        unfold buildNPCs
        rw [hn, hns]
      exact ⟨_, this⟩

theorem create_scene_from_data_ok (st : Store) (d : SceneData) (t : String)
    (ht : t ≠ "") (hok : d.buildOk = true) :
    ∃ st1 s, create_scene_from_data st d (some t) = (st1, Except.ok s) ∧
      s.id = t := by
  rw [SceneData.buildOk, Bool.and_eq_true, Bool.and_eq_true] at hok
  rcases Option.isSome_iff_exists.mp hok.1.1 with ⟨ti, hti⟩
  rcases Option.isSome_iff_exists.mp hok.1.2 with ⟨de, hde⟩
  rcases buildNPCs_ok _ hok.2 with ⟨ns, hns⟩
  have htru : truthy (some t) = true := by simp [truthy, ht]
  unfold create_scene_from_data
  simp only [htru, eq_self_iff_true, if_true, hns, hti, hde]
  cases hcn : d.connections with
  | some r => exact ⟨st, _, rfl, rfl⟩
  | none => exact ⟨_, _, rfl, rfl⟩

theorem getD_append_length {α : Type} (l : List α) (a d : α) :
    (l ++ [a]).getD l.length d = a := by
  induction l with
  | nil => rfl
  | cons x t ih => simpa using ih

theorem fallback_scene_spec (st : Store) (gs : GameState) (sid title desc : String)
    (hsid : sid ≠ "") :
    fallback_scene st gs sid title desc =
      (⟨st.dicts ++ [backConnections gs]⟩,
        Except.ok ⟨sid, title, desc, [], st.dicts.length, []⟩) := by
  unfold fallback_scene create_scene_from_data Store.alloc
  have htru : truthy (some sid) = true := by simp [truthy, hsid]
  simp only [htru, eq_self_iff_true, if_true]
  rfl

/-! ## Claim C1 -/

/-- C1 (amended): when the generation call fails (transport, parse or
validation error), `_generate_new_scene` returns a fallback scene with the
requested id and leaves the dungeon master untouched; the fallback's
connection dict is exactly `backConnections`: the single "Path Back" edge
to the previous scene when one exists, and *empty* when there is none. -/
theorem generate_new_scene_fallback (dm : DungeonMaster) (st : Store)
    (gs : GameState) (sid : String) (gen : Except String RawSceneData)
    (hfail : isErr (callLLMScene gen) = true) (hsid : sid ≠ "") :
    ∃ s : Scene,
      (dm.generate_new_scene st gs sid gen).2.2 = Except.ok s ∧
      (dm.generate_new_scene st gs sid gen).2.1 = dm ∧
      s.id = sid ∧
      s.connectionsIn (dm.generate_new_scene st gs sid gen).1
        = backConnections gs := by
  cases hc : callLLMScene gen with
  | ok raw =>
      rw [hc] at hfail
      simp [isErr] at hfail
  | error e =>
      have hrun : dm.generate_new_scene st gs sid gen =
          ((⟨st.dicts ++ [backConnections gs]⟩ : Store), dm,
            Except.ok ⟨sid, "Mysterious Area", mysteriousAreaDescription, [],
              st.dicts.length, []⟩) := by
        unfold DungeonMaster.generate_new_scene
        rw [hc, fallback_scene_spec st gs sid _ _ hsid]
      refine ⟨⟨sid, "Mysterious Area", mysteriousAreaDescription, [],
        st.dicts.length, []⟩, ?_, ?_, rfl, ?_⟩
      · rw [hrun]
      · rw [hrun]
      · rw [hrun]
        unfold Scene.connectionsIn Store.get
        exact getD_append_length _ _ _

def c1cur : Scene :=
  { id := "entrance", title := "Gate", description := "A gate.",
    connections := 0 }

def c1gs : GameState := { current_scene := some c1cur }

/-- Witness for C1 at a concrete failing generation with a previous
scene. -/
theorem generate_new_scene_fallback_witness :
    ∃ s : Scene,
      (DungeonMaster.generate_new_scene {} ⟨[[]]⟩ c1gs "mist"
          (Except.error "offline")).2.2 = Except.ok s ∧
      (DungeonMaster.generate_new_scene {} ⟨[[]]⟩ c1gs "mist"
          (Except.error "offline")).2.1 = ({} : DungeonMaster) ∧
      s.id = "mist" ∧
      s.connectionsIn (DungeonMaster.generate_new_scene {} ⟨[[]]⟩ c1gs "mist"
          (Except.error "offline")).1 = backConnections c1gs :=
  generate_new_scene_fallback {} ⟨[[]]⟩ c1gs "mist" (Except.error "offline")
    (by decide) (by decide)

def c1run : Store × DungeonMaster × Except PyErr Scene :=
  DungeonMaster.generate_new_scene {} {} {} "mist" (Except.error "offline")

def c1fallback : Scene :=
  { id := "mist", title := "Mysterious Area",
    description := mysteriousAreaDescription, connections := 0 }

/-- Counterexample for C1 as stated: with *no* previous scene, the
fallback scene has an empty connection dict — not "at least one
connection". -/
theorem generate_new_scene_fallback_empty :
    c1run.2.2 = Except.ok c1fallback ∧
    (c1fallback.connectionsIn c1run.1).length = 0 :=
  ⟨rfl, rfl⟩

/-! ## Claim C4 -/

/-- C4 (amended): for a target id that is a key of the scenario's scene
map, `create_scene` never consults the generator (the result does not
depend on the oracle argument), and when the target is nonempty and the
predefined definition constructs successfully the returned scene carries
the target id.  (An empty-string target is falsy in Python and takes the
no-target path instead.) -/
theorem create_scene_predefined (dm : DungeonMaster) (st : Store)
    (gs : GameState) (t : String) (data : SceneData)
    (gen1 gen2 : Except String RawSceneData)
    (hdata : lookupKey (dm.scenario.scenes.getD []) t = some data) :
    dm.create_scene st gs (some t) gen1 = dm.create_scene st gs (some t) gen2 ∧
    (t ≠ "" → data.buildOk = true →
        ∃ s : Scene, (dm.create_scene st gs (some t) gen1).2.2 = Except.ok s ∧
          s.id = t) := by
  by_cases ht : t = ""
  · subst ht
    constructor
    · unfold DungeonMaster.create_scene
      cases hgs : gs.current_scene <;> rfl
    · intro h
      exact (h rfl).elim
  · have htru : truthyOpt (some t) = some t := by simp [truthyOpt, ht]
    have hred : ∀ gen : Except String RawSceneData,
        dm.create_scene st gs (some t) gen =
          ((dm.create_scene_from_scenario st t).1, dm,
            (dm.create_scene_from_scenario st t).2) := by
      intro gen
      unfold DungeonMaster.create_scene
      rw [htru]
      cases hgs : gs.current_scene <;> simp only [hdata]
    constructor
    · rw [hred gen1, hred gen2]
    · intro _ hok
      rw [hred gen1]
      unfold DungeonMaster.create_scene_from_scenario
      cases hsc : dm.scenario.scenes with
      | none =>
          rw [hsc] at hdata
          simp [lookupKey] at hdata
      | some l =>
          have hl : lookupKey l t = some data := by
            rw [hsc] at hdata
            simpa using hdata
          rcases create_scene_from_data_ok st data t ht hok with ⟨st1, s, hcs, hid⟩
          simp only [hl, hcs]
          exact ⟨s, rfl, hid⟩

def c4startData : SceneData := { title := some "Hall", description := some "big" }

def c4emptyKeyData : SceneData := { title := some "Void", description := some "odd" }

def c4dm : DungeonMaster :=
  { scenario :=
      { starting_scene_id := some "start"
        scenes := some [("start", c4startData), ("", c4emptyKeyData)] } }

def c4run : Store × DungeonMaster × Except PyErr Scene :=
  DungeonMaster.create_scene c4dm {} {} (some "") (Except.error "offline")

def sceneIdOf : Except PyErr Scene → Option String
  | .ok s => some s.id
  | .error _ => none

/-- Counterexample for C4 as stated: the empty string is a key of the
scenes map (with a well-formed definition), yet `create_scene` with
target `""` — falsy in Python — resolves the *starting* scene and returns
a scene whose id is "start", not the target. -/
theorem create_scene_empty_target_id :
    keyIn (c4dm.scenario.scenes.getD []) "" = true ∧
    sceneIdOf c4run.2.2 = some "start" := by
  exact ⟨by decide, by decide⟩

/-- Witness for the amended C4 at a concrete scenario. -/
theorem create_scene_predefined_witness :
    DungeonMaster.create_scene c4dm {} {} (some "start") (Except.error "a")
      = DungeonMaster.create_scene c4dm {} {} (some "start")
          (Except.ok { title := some "x", description := some "y" }) ∧
    ∃ s : Scene,
      (DungeonMaster.create_scene c4dm {} {} (some "start")
          (Except.error "a")).2.2 = Except.ok s ∧ s.id = "start" := by
  have h := create_scene_predefined c4dm {} {} "start" c4startData
    (Except.error "a") (Except.ok { title := some "x", description := some "y" })
    (by decide)
  exact ⟨h.1, h.2 (by decide) (by decide)⟩

/-! ## Claim C10 -/

/-- C10 (amended): when the generation *call* fails (transport, parse or
validation), nothing is stored and a later request for the same unknown id
goes through `_generate_new_scene` (the generator) again; when the call
succeeds, the raw data is stored under the id unconditionally — even if
entity construction afterwards fails and a fallback is returned. -/
theorem scene_memory_write_policy (dm : DungeonMaster) (st st2 : Store)
    (gs gs2 : GameState) (sid : String) (gen gen2 : Except String RawSceneData)
    (hpre : lookupKey (dm.scenario.scenes.getD []) sid = none)
    (hmem : lookupKey dm.scene_memory sid = none) (hsid : sid ≠ "") :
    (isErr (callLLMScene gen) = true →
        (dm.generate_new_scene st gs sid gen).2.1 = dm ∧
        dm.create_scene st2 gs2 (some sid) gen2
          = dm.generate_new_scene st2 gs2 sid gen2) ∧
    (∀ raw, callLLMScene gen = Except.ok raw →
        (dm.generate_new_scene st gs sid gen).2.1.scene_memory
          = setKey dm.scene_memory sid ((raw.store st).2)) := by
  constructor
  · intro hfail
    constructor
    · rcases generate_new_scene_fallback dm st gs sid gen hfail hsid with
        ⟨s, _, hdm, _, _⟩
      exact hdm
    · unfold DungeonMaster.create_scene
      have htru : truthyOpt (some sid) = some sid := by simp [truthyOpt, hsid]
      rw [htru]
      cases hgs : gs2.current_scene <;> simp only [hpre, hmem]
  · intro raw hok
    unfold DungeonMaster.generate_new_scene
    simp only [hok]
    have hpair : create_scene_from_data (raw.store st).1 (raw.store st).2 (some sid)
        = ((create_scene_from_data (raw.store st).1 (raw.store st).2 (some sid)).1,
           (create_scene_from_data (raw.store st).1 (raw.store st).2 (some sid)).2) := rfl
    rw [hpair]
    cases hres : (create_scene_from_data (raw.store st).1 (raw.store st).2 (some sid)).2 with
    | ok s => rfl
    | error e => cases e <;> rfl

/-- Witness for the amended C10: failed generation leaves the memory
untouched and a retry goes through generation again. -/
theorem scene_memory_write_policy_witness :
    (DungeonMaster.generate_new_scene {} {} {} "w10" (Except.error "x")).2.1
        = ({} : DungeonMaster) ∧
    DungeonMaster.create_scene {} {} {} (some "w10") (Except.error "y")
        = DungeonMaster.generate_new_scene {} {} {} "w10" (Except.error "y") := by
  have h := scene_memory_write_policy {} {} {} {} {} "w10"
    (Except.error "x") (Except.error "y") (by decide) (by decide) (by decide)
  exact h.1 (by decide)

def c10raw : RawSceneData :=
  { title := some "Generated Spot", description := some "gen",
    connections := some [], characters := some [{}] }

def c10run : Store × DungeonMaster × Except PyErr Scene :=
  DungeonMaster.generate_new_scene {} {} {} "mist2" (Except.ok c10raw)

def sceneTitleOf : Except PyErr Scene → Option String
  | .ok s => some s.title
  | .error _ => none

def c10second : Store × DungeonMaster × Except PyErr Scene :=
  DungeonMaster.create_scene c10run.2.1 c10run.1 {} (some "mist2")
    (Except.error "z")

/-- Counterexample for C10 as stated: a response that passes validation but
whose character entry lacks a name fails entity construction; a fallback
scene ("Unexpected Area") is returned AND the raw data is stored under the
id, so a second request reconstructs the broken data from memory (raising
`KeyError`) instead of invoking the generator again. -/
theorem generate_new_scene_fallback_stores_memory :
    sceneTitleOf c10run.2.2 = some "Unexpected Area" ∧
    keyIn c10run.2.1.scene_memory "mist2" = true ∧
    c10second.2.2 = Except.error (PyErr.keyError "name") := by
  exact ⟨by decide, by decide, rfl⟩

/-! ## Claim C2 -/

def c2data : SceneData :=
  { id := some "mist", title := some "Misty Hollow", description := some "Fog.",
    connections := some 0, characters := some [] }

def c2dm : DungeonMaster := { scene_memory := [("mist", c2data)] }

def c2store : Store := ⟨[[]]⟩

def c2scene : Scene :=
  { id := "mist", title := "Misty Hollow", description := "Fog.",
    connections := 0 }

def c2first : Store × DungeonMaster × Except PyErr Scene :=
  DungeonMaster.create_scene c2dm c2store {} (some "mist") (Except.error "offline")

def c2gs1 : GameState := { current_scene := some c2scene }

def c2result : ActionResult :=
  { success := some true, description := some "ok",
    scene_updates := some { new_connections := some [("Ledge", "cliff")] } }

def c2after : Store × GameState := GameState.update c2gs1 c2first.1 c2result

def c2second : Store × DungeonMaster × Except PyErr Scene :=
  DungeonMaster.create_scene c2dm c2after.1 c2after.2 (some "mist")
    (Except.error "offline")

/-- C2 (code bug, demonstrated): `_create_scene_from_data` hands the live
`Scene` the *same* connection dict object that sits in `scene_memory`; a
`GameState.update` that adds a connection to the current scene therefore
mutates the stored raw definition, and re-resolving the remembered id
returns a different connection map ([] the first time, the added edge the
second time) — memory reconstruction is not idempotent. -/
theorem scene_memory_reconstruction_not_idempotent :
    c2first.2.2 = Except.ok c2scene ∧
    c2scene.connectionsIn c2first.1 = [] ∧
    c2second.2.2 = Except.ok c2scene ∧
    c2scene.connectionsIn c2second.1 = [("Ledge", "cliff")] := by
  exact ⟨rfl, by decide, rfl, by decide⟩
